import Mathlib

/-!
A verification development for the `retailx_ai` question-answering workflow
(`src/retailx_ai/workflow.py`).

The program is a five-node workflow over a progressively populated session
state.  Each node formats a prompt template, calls the language model (or the
data store), parses the output, and returns the fields to merge into the
state.  We embed the program shallowly:

* Python values coming back from `json.loads` are modelled by the inductive
  type `Json`; Python exceptions by `PyError` (a kind plus the `str(e)` text).
* The three external collaborators — the model endpoint, the stdlib JSON
  decoder, and the data store (`query_db` from `data_setup`, composed with
  `.to_markdown()`) — are abstracted as the fields of `Env`, as the
  specification places them out of scope.
* LangChain `PromptTemplate.format` is modelled by `fmt`: a template is a
  list of literal/placeholder pieces; formatting substitutes named inputs
  left to right and raises `KeyError` on the first missing input, ignoring
  extra keys, exactly as Python `str.format` does.
* The LangGraph driver is modelled by `runLoop`: it executes the current
  node, merges the returned partial state into the session state
  (returned keys overwrite, all other fields are kept), follows the edge
  table of the source, and records the nodes executed and the external
  calls performed.
-/

/-- A Python value produced by `json.loads`: null, booleans, numbers
(modelled as integers; no claim depends on floats), strings, lists and
dicts (association lists, keys already deduplicated by the decoder). -/
inductive Json where
  | null : Json
  | bool (b : Bool) : Json
  | num (n : Int) : Json
  | str (s : String) : Json
  | arr (elements : List Json) : Json
  | obj (entries : List (String × Json)) : Json
deriving Repr

/-- The kind of a raised Python exception, as far as the claims distinguish
them: `KeyError` (a `LookupError`), `TypeError`, and everything else
(data-store errors, etc.). -/
inductive ErrKind where
  | keyError : ErrKind
  | typeError : ErrKind
  | otherError : ErrKind
deriving Repr, DecidableEq

/-- A raised Python exception: its kind and its `str(e)` text. -/
structure PyError where
  kind : ErrKind
  msg : String
deriving Repr, DecidableEq

/-- `str(e)` of an exception. -/
def pyStrErr (e : PyError) : String := e.msg

/-- One piece of a prompt template: literal text or a named placeholder. -/
inductive Piece where
  | lit (text : String) : Piece
  | var (name : String) : Piece
deriving Repr, DecidableEq

/-- A LangChain `PromptTemplate`: the template text, split into literal and
placeholder pieces, together with its declared `input_variables`. -/
structure PromptTemplate where
  template : List Piece
  input_variables : List String
deriving Repr, DecidableEq

/-- The placeholder names used by a piece list, in order of appearance. -/
def varsOfPieces : List Piece → List String
  | [] => []
  | .lit _ :: rest => varsOfPieces rest
  | .var v :: rest => v :: varsOfPieces rest

/-- Python `str.format` over the pieces: substitute each placeholder from the
named inputs, raising `KeyError` on the first missing one (left to right);
extra keys are ignored. -/
def fmtPieces (kwargs : List (String × String)) : List Piece → Except PyError String
  | [] => .ok ""
  | .lit t :: rest =>
    match fmtPieces kwargs rest with
    | .ok s => .ok (t ++ s)
    | .error e => .error e
  | .var v :: rest =>
    match kwargs.lookup v with
    | none => .error ⟨.keyError, v⟩
    | some val =>
      match fmtPieces kwargs rest with
      | .ok s => .ok (val ++ s)
      | .error e => .error e

/-- `PromptTemplate.format(**kwargs)`. -/
def fmt (t : PromptTemplate) (kwargs : List (String × String)) : Except PyError String :=
  fmtPieces kwargs t.template

mutual
/-- Python `repr` of a JSON-derived value (used by `str` for containers). -/
def pyRepr : Json → String
  | .null => "None"
  | .bool true => "True"
  | .bool false => "False"
  | .num n => toString n
  | .str s => "\x27" ++ s ++ "\x27"
  | .arr xs => "[" ++ pyReprItems xs ++ "]"
  | .obj kvs => "\x7b" ++ pyReprPairs kvs ++ "\x7d"

/-- Comma-separated `repr`s of list items. -/
def pyReprItems : List Json → String
  | [] => ""
  | [x] => pyRepr x
  | x :: y :: rest => pyRepr x ++ ", " ++ pyReprItems (y :: rest)

/-- Comma-separated `repr`s of dict entries. -/
def pyReprPairs : List (String × Json) → String
  | [] => ""
  | [(k, v)] => "\x27" ++ k ++ "\x27: " ++ pyRepr v
  | (k, v) :: p :: rest => "\x27" ++ k ++ "\x27: " ++ pyRepr v ++ ", " ++ pyReprPairs (p :: rest)
end

/-- Python `str` of a JSON-derived value, as applied by `str.format` to a
substituted field. -/
def pyStr : Json → String
  | .str s => s
  | j => pyRepr j

/-- Python truthiness (`bool(v)`) of a JSON-derived value. -/
def pyTruthy : Json → Bool
  | .null => false
  | .bool b => b
  | .num n => n != 0
  | .str s => s != ""
  | .arr xs => !xs.isEmpty
  | .obj kvs => !kvs.isEmpty

/-- Python subscripting `v["key"]` on a JSON-derived value: a dict lookup
raising `KeyError` when the key is absent, and a `TypeError` when the value
is not a dict. -/
def subscript : Json → String → Except PyError Json
  | .obj kvs, k =>
    match kvs.lookup k with
    | some v => .ok v
    | none => .error ⟨.keyError, k⟩
  | .arr _, _ => .error ⟨.typeError, "list indices must be integers or slices, not str"⟩
  | .str _, _ => .error ⟨.typeError, "string indices must be integers"⟩
  | _, _ => .error ⟨.typeError, "object is not subscriptable"⟩

/-- The characters removed by Python `str.strip()` (the ASCII whitespace
set; the strings in play are ASCII). -/
def isPySpace (c : Char) : Bool :=
  c = ' ' || c = '\t' || c = '\n' || c = '\r' || c = '\x0b' || c = '\x0c'

/-- Remove trailing characters satisfying `isPySpace` from a character list. -/
def stripTrailing (l : List Char) : List Char :=
  (l.reverse.dropWhile isPySpace).reverse

/-- Python `str.strip()`: remove leading and trailing whitespace. -/
def pyStrip (s : String) : String :=
  ⟨stripTrailing (s.data.dropWhile isPySpace)⟩

/-- The external collaborators, out of scope per the specification:
`llm` is the model endpoint (one prompt in, one text completion out);
`loads` is the stdlib JSON decoder (`none` models a `JSONDecodeError`);
`query_db` is the data store: the rendered `query_db(query).to_markdown()`
text on success, or the exception it raises on failure. -/
structure Env where
  llm : String → String
  loads : String → Option Json
  query_db : String → Except PyError String

/-- The session state (`WorkflowState` TypedDict): every field is optional
until the step that produces it has run.  The same record type also serves
as the partial update a node returns (unset fields are `none`). -/
structure WorkflowState where
  question : Option String := none
  plan : Option Json := none
  can_answer : Option Json := none
  sql_query : Option String := none
  sql_result : Option String := none
  answer : Option String := none
deriving Repr

/-- An outbound call to an external collaborator. -/
inductive Effect where
  | llmCall (prompt : String) : Effect
  | dbCall (query : String) : Effect
deriving Repr, DecidableEq

/-- The number of model calls in an effect list. -/
def llmCallCount (effects : List Effect) : Nat :=
  (effects.filter fun e => match e with | .llmCall _ => true | _ => false).length

/-- The number of data-store calls in an effect list. -/
def dbCallCount (effects : List Effect) : Nat :=
  (effects.filter fun e => match e with | .dbCall _ => true | _ => false).length

/-- The `DB_DESCRIPTION` constant. -/
def DB_DESCRIPTION : String :=
  "You have access to the following tables and columns in a SQLite3 database:\n\nRetail Table\nCustomer_ID: A unique ID that identifies each customer.\nName: The customer\x27s name.\nGender: The customer\x27s gender: Male, Female.\nAge: The customer\x27s age.\nCountry: The country where the customer resides.\nState: The state where the customer resides.\nCity: The city where the customer resides.\nZip_Code: The zip code where the customer resides.\nProduct: The product purchased by the customer.\nCategory: The category of the product.\nPrice: The price of the product.\nPurchase_Date: The date when the purchase was made.\nQuantity: The quantity of the product purchased.\nTotal_Spent: The total amount spent by the customer.\n"

/-- The feasibility template (`can_answer_router_prompt`). -/
def can_answer_router_prompt : PromptTemplate where
  template :=
    [ .lit "system\n    You are a database reading bot that can answer users\x27 questions using information from a database. \\n\n\n    ",
      .var "data_description",
      .lit " \\n\\n\n\n    Given the user\x27s question, decide whether the question can be answered using the information in the database. \\n\\n\n\n    Return a JSON with two keys, \x27reasoning\x27 and \x27can_answer\x27, and no preamble or explanation.\n    Return one of the following JSON:\n\n    \x7b\"reasoning\": \"I can find the average total spent by customers in California by averaging the Total_Spent column in the Retail table filtered by State = \x27CA\x27\", \"can_answer\":true\x7d\n    \x7b\"reasoning\": \"I can find the total quantity of products sold in the Electronics category using the Quantity column in the Retail table filtered by Category = \x27Electronics\x27\", \"can_answer\":true\x7d\n    \x7b\"reasoning\": \"I can\x27t answer how many customers purchased products last year because the Retail table doesn\x27t contain a year column\", \"can_answer\":false\x7d\n\n    user\n    Question: ",
      .var "question",
      .lit " \\n\n    assistant" ]
  input_variables := ["data_description", "question"]

/-- The query-writing template (`write_query_prompt`). -/
def write_query_prompt : PromptTemplate where
  template :=
    [ .lit "system\n    You are a database reading bot that can answer users\x27 questions using information from a database. \\n\n\n    ",
      .var "data_description",
      .lit " \\n\\n\n\n    In the previous step, you have prepared the following plan: ",
      .var "plan",
      .lit "\n\n    Return an SQL query with no preamble or explanation. Don\x27t include any markdown characters or quotation marks around the query.\n    user\n    Question: ",
      .var "question",
      .lit " \\n\n    assistant" ]
  input_variables := ["data_description", "question", "plan"]

/-- The answer-writing template (`write_answer_prompt`). -/
def write_answer_prompt : PromptTemplate where
  template :=
    [ .lit "system\n    You are a database reading bot that can answer users\x27 questions using information from a database. \\n\n\n    In the previous step, you have planned the query as follows: ",
      .var "plan",
      .lit ",\n    generated the query ",
      .var "sql_query",
      .lit "\n    and retrieved the following data:\n    ",
      .var "sql_result",
      .lit "\n\n    Return a text answering the user\x27s question using the provided data.\n    user\n    Question: ",
      .var "question",
      .lit " \\n\n    assistant" ]
  input_variables := ["question", "plan", "sql_query", "sql_result"]

/-- The refusal template (`cannot_answer_prompt`). -/
def cannot_answer_prompt : PromptTemplate where
  template :=
    [ .lit "system\n    You are a database reading bot that can answer users\x27 questions using information from a database. \\n\n\n    You cannot answer the user\x27s questions because of the following problem: ",
      .var "problem",
      .lit ".\n\n    Explain the issue to the user and apologize for the inconvenience.\n    user\n    Question: ",
      .var "question",
      .lit " \\n\n    assistant" ]
  input_variables := ["question", "problem"]

/-- `parse_json_output`: `json.loads` the output, and on a decode error fall
back to `{"reasoning": "", "can_answer": False}`. -/
def parse_json_output (env : Env) (output : String) : Json :=
  match env.loads output with
  | some j => j
  | none => .obj [("reasoning", .str ""), ("can_answer", .bool false)]

/-- `parse_string_output`: `output.strip()`. -/
def parse_string_output (output : String) : String :=
  pyStrip output

/-- One entry of the state dict passed as `**input_data`, when the field is
populated. -/
def optEntry (k : String) : Option String → List (String × String)
  | some v => [(k, v)]
  | none => []

/-- The session state viewed as the keyword dict a node receives and passes
to `PromptTemplate.format(**input_data)`: only populated fields are present,
and `str.format` renders each substituted value with Python `str`. -/
def stateKw (s : WorkflowState) : List (String × String) :=
  optEntry "question" s.question ++ optEntry "plan" (s.plan.map pyStr) ++
  optEntry "can_answer" (s.can_answer.map pyStr) ++ optEntry "sql_query" s.sql_query ++
  optEntry "sql_result" s.sql_result ++ optEntry "answer" s.answer

/-- `can_answer_router`: format the feasibility prompt from the explicit
input dict, call the model, parse the output as JSON. -/
def can_answer_router (env : Env) (input_data : List (String × String)) :
    Except PyError (Json × List Effect) :=
  match fmt can_answer_router_prompt input_data with
  | .error e => .error e
  | .ok prompt => .ok (parse_json_output env (env.llm prompt), [.llmCall prompt])

/-- `check_if_can_answer_question` (the feasibility node): call
`can_answer_router` on `{"question": state["question"],
"data_description": DB_DESCRIPTION}` and return
`{"plan": result["reasoning"], "can_answer": result["can_answer"]}`. -/
def check_if_can_answer_question (env : Env) (state : WorkflowState) :
    Except PyError (WorkflowState × List Effect) :=
  match state.question with
  | none => .error ⟨.keyError, "question"⟩
  | some q =>
    match can_answer_router env [("question", q), ("data_description", DB_DESCRIPTION)] with
    | .error e => .error e
    | .ok (result, effects) =>
      match subscript result "reasoning" with
      | .error e => .error e
      | .ok reasoning =>
        match subscript result "can_answer" with
        | .error e => .error e
        | .ok ca => .ok ({ plan := some reasoning, can_answer := some ca }, effects)

/-- `skip_question` (the router): `"no" if state["can_answer"] else "yes"`. -/
def skip_question (state : WorkflowState) : Except PyError String :=
  match state.can_answer with
  | none => .error ⟨.keyError, "can_answer"⟩
  | some v => .ok (if pyTruthy v then "no" else "yes")

/-- `write_query` (the query-writing node): format the query-writing prompt
from `**input_data` (the graph passes the session state), call the model,
strip the output, return `{"sql_query": ...}`. -/
def write_query (env : Env) (input_data : WorkflowState) :
    Except PyError (WorkflowState × List Effect) :=
  match fmt write_query_prompt (stateKw input_data) with
  | .error e => .error e
  | .ok prompt =>
    .ok ({ sql_query := some (parse_string_output (env.llm prompt)) }, [.llmCall prompt])

/-- `execute_query` (the query-execution node): read `state["sql_query"]`,
then inside `try` run the data store and render the table; any exception is
caught and its `str` becomes the result. -/
def execute_query (env : Env) (state : WorkflowState) :
    Except PyError (WorkflowState × List Effect) :=
  match state.sql_query with
  | none => .error ⟨.keyError, "sql_query"⟩
  | some query =>
    match env.query_db query with
    | .ok rendered => .ok ({ sql_result := some rendered }, [.dbCall query])
    | .error e => .ok ({ sql_result := some (pyStrErr e) }, [.dbCall query])

/-- `write_answer` (the answer-writing node): format the answer prompt from
`**input_data`, call the model, strip the output, return `{"answer": ...}`. -/
def write_answer (env : Env) (input_data : WorkflowState) :
    Except PyError (WorkflowState × List Effect) :=
  match fmt write_answer_prompt (stateKw input_data) with
  | .error e => .error e
  | .ok prompt =>
    .ok ({ answer := some (parse_string_output (env.llm prompt)) }, [.llmCall prompt])

/-- `cannot_answer` (the refusal node): format the refusal prompt from
`**input_data`, call the model, strip the output, return `{"answer": ...}`. -/
def cannot_answer (env : Env) (input_data : WorkflowState) :
    Except PyError (WorkflowState × List Effect) :=
  match fmt cannot_answer_prompt (stateKw input_data) with
  | .error e => .error e
  | .ok prompt =>
    .ok ({ answer := some (parse_string_output (env.llm prompt)) }, [.llmCall prompt])

/-- The five graph nodes, named as in `workflow.add_node`. -/
inductive Node where
  | check_if_can_answer_question : Node
  | write_query : Node
  | execute_query : Node
  | write_answer : Node
  | cannot_answer : Node
deriving Repr, DecidableEq

/-- The label table of the conditional edge out of the feasibility node:
`{"yes": "cannot_answer", "no": "write_query"}`. -/
def conditionalEdgeMap : List (String × Node) :=
  [("yes", .cannot_answer), ("no", .write_query)]

/-- Route out of the feasibility node: apply the router `skip_question` to
the merged state and look its label up in the edge table (an unknown label
would be an engine error). -/
def routeAfterCheck (s : WorkflowState) : Except PyError Node :=
  match skip_question s with
  | .error e => .error e
  | .ok label =>
    match conditionalEdgeMap.lookup label with
    | some n => .ok n
    | none => .error ⟨.otherError, "unknown branch label"⟩

/-- The edge table of the graph (`workflow.add_edge` /
`add_conditional_edges`): `none` is the `END` sentinel. -/
def nextNode (n : Node) (s : WorkflowState) : Except PyError (Option Node) :=
  match n with
  | .check_if_can_answer_question =>
    match routeAfterCheck s with
    | .error e => .error e
    | .ok target => .ok (some target)
  | .write_query => .ok (some .execute_query)
  | .execute_query => .ok (some .write_answer)
  | .write_answer => .ok none
  | .cannot_answer => .ok none

/-- Dispatch a node name to its step function. -/
def runNode (env : Env) (n : Node) (s : WorkflowState) :
    Except PyError (WorkflowState × List Effect) :=
  match n with
  | .check_if_can_answer_question => check_if_can_answer_question env s
  | .write_query => write_query env s
  | .execute_query => execute_query env s
  | .write_answer => write_answer env s
  | .cannot_answer => cannot_answer env s

/-- Merge a node's returned partial state into the session state: returned
fields overwrite, all others are kept. -/
def applyUpdate (s u : WorkflowState) : WorkflowState where
  question := u.question.orElse fun _ => s.question
  plan := u.plan.orElse fun _ => s.plan
  can_answer := u.can_answer.orElse fun _ => s.can_answer
  sql_query := u.sql_query.orElse fun _ => s.sql_query
  sql_result := u.sql_result.orElse fun _ => s.sql_result
  answer := u.answer.orElse fun _ => s.answer

/-- The chronological record of a run: the nodes whose step function
completed, and the external calls performed. -/
structure RunTrace where
  visited : List Node := []
  effects : List Effect := []
deriving Repr

/-- How an invocation of the graph ends: reaching `END`, an unhandled
exception raised at some node, or (never, for this finite graph, given
enough fuel) running out of fuel. -/
inductive Outcome where
  | finished (s : WorkflowState) (tr : RunTrace) : Outcome
  | raised (e : PyError) (atNode : Node) (s : WorkflowState) (tr : RunTrace) : Outcome
  | outOfFuel (s : WorkflowState) (tr : RunTrace) : Outcome

/-- The graph engine: execute the current node, merge its update, follow the
edge table, recurse.  `fuel` bounds the number of node executions (the
engine's recursion limit). -/
def runLoop (env : Env) (fuel : Nat) (n : Node) (s : WorkflowState) (tr : RunTrace) : Outcome :=
  match fuel with
  | 0 => .outOfFuel s tr
  | fuel' + 1 =>
    match runNode env n s with
    | .error e => .raised e n s tr
    | .ok (u, effects) =>
      let s' := applyUpdate s u
      let tr' : RunTrace := ⟨tr.visited ++ [n], tr.effects ++ effects⟩
      match nextNode n s' with
      | .error e => .raised e n s' tr'
      | .ok none => .finished s' tr'
      | .ok (some n') => runLoop env fuel' n' s' tr'

/-- `run_workflow`: build the initial state `{"question": question}` and run
the graph from its entry point (`check_if_can_answer_question`) with the
engine's default recursion limit. -/
def run_workflow (env : Env) (question : String) : Outcome :=
  runLoop env 25 .check_if_can_answer_question { question := some question } ⟨[], []⟩

/-! ## Helper lemmas about `dropWhile` and trailing stripping -/

theorem dropWhile_self_idem {α : Type} (p : α → Bool) (l : List α) :
    List.dropWhile p (List.dropWhile p l) = List.dropWhile p l := by
  induction l with
  | nil => rfl
  | cons a t ih => cases h : p a <;> simp [List.dropWhile_cons, h, ih]

theorem dropWhile_getLast?_or {α : Type} (p : α → Bool) (l : List α) :
    List.dropWhile p l = [] ∨ (List.dropWhile p l).getLast? = l.getLast? := by
  induction l with
  | nil => exact Or.inl rfl
  | cons a t ih =>
    cases h : p a
    · right; simp [List.dropWhile_cons, h]
    · rw [List.dropWhile_cons]
      simp only [h, if_true]
      cases t with
      | nil => left; rfl
      | cons b t' =>
        rcases ih with h1 | h2
        · exact Or.inl h1
        · right; rw [h2, List.getLast?_cons_cons]

theorem head?_dropWhile_not {α : Type} (p : α → Bool) (l : List α) :
    ∀ c, (List.dropWhile p l).head? = some c → p c = false := by
  induction l with
  | nil => intro c h; simp at h
  | cons a t ih =>
    intro c h
    cases hp : p a
    · rw [List.dropWhile_cons] at h
      simp [hp] at h
      rw [← h]; exact hp
    · rw [List.dropWhile_cons] at h
      simp [hp] at h
      exact ih c h

theorem head?_stripTrailing_or (l : List Char) :
    (stripTrailing l).head? = l.head? ∨ stripTrailing l = [] := by
  unfold stripTrailing
  rcases dropWhile_getLast?_or isPySpace l.reverse with h | h
  · right; rw [h]; rfl
  · left
    rw [List.head?_reverse, h, List.getLast?_reverse]

theorem dropWhile_of_head?_not {α : Type} (p : α → Bool) (l : List α)
    (h : ∀ c, l.head? = some c → p c = false) : List.dropWhile p l = l := by
  cases l with
  | nil => rfl
  | cons a t =>
    have ha : p a = false := h a rfl
    simp [List.dropWhile_cons, ha]

theorem stripTrailing_idem (l : List Char) :
    stripTrailing (stripTrailing l) = stripTrailing l := by
  unfold stripTrailing
  rw [List.reverse_reverse, dropWhile_self_idem]

/-- Claim C7: the output-trimming function is idempotent — for every raw
model-output string, trimming twice yields the same string as trimming once. -/
theorem c7_parse_string_output_idem (s : String) :
    parse_string_output (parse_string_output s) = parse_string_output s := by
  unfold parse_string_output pyStrip
  congr 1
  show stripTrailing (List.dropWhile isPySpace
      (stripTrailing (List.dropWhile isPySpace s.data))) =
    stripTrailing (List.dropWhile isPySpace s.data)
  have hdrop : List.dropWhile isPySpace
      (stripTrailing (List.dropWhile isPySpace s.data)) =
      stripTrailing (List.dropWhile isPySpace s.data) := by
    apply dropWhile_of_head?_not
    intro c hc
    rcases head?_stripTrailing_or (List.dropWhile isPySpace s.data) with h | h
    · rw [h] at hc
      exact head?_dropWhile_not isPySpace s.data c hc
    · rw [h] at hc; simp at hc
  rw [hdrop, stripTrailing_idem]

/-- Claim C6: the router `skip_question` is a pure function of the
`can_answer` state field alone (states agreeing on that field route
identically), and composed with the conditional-edge mapping it selects the
refusal node when the boolean is false and the query-writing node when it is
true. -/
theorem c6_router_pure (s s' : WorkflowState) (b : Bool) :
    (s.can_answer = s'.can_answer → skip_question s = skip_question s') ∧
    (s.can_answer = some (.bool b) →
      skip_question s = .ok (if b then "no" else "yes") ∧
      routeAfterCheck s = .ok (if b then Node.write_query else Node.cannot_answer)) := by
  constructor
  · intro h; unfold skip_question; rw [h]
  · intro h
    constructor
    · unfold skip_question; rw [h]; rfl
    · unfold routeAfterCheck skip_question
      rw [h]
      cases b <;> rfl

/-- Witness for C6: two states agreeing on `can_answer := some false` route
identically, and the conditional edge selects the refusal node. -/
theorem c6_router_pure_witness :
    (skip_question { can_answer := some (.bool false) } =
      skip_question { question := some "q", can_answer := some (.bool false) }) ∧
    routeAfterCheck { can_answer := some (.bool false) } = .ok Node.cannot_answer := by
  refine ⟨(c6_router_pure _ _ false).1 rfl, ?_⟩
  exact ((c6_router_pure { can_answer := some (.bool false) }
    { can_answer := some (.bool false) } false).2 rfl).2

/-- Claim C4: for every exception raised by the data-store collaborator, the
query-execution step does not raise — it returns normally with `sql_result`
set to the exception's text — and the graph's edge out of `execute_query`
leads to the answer-writing node. -/
theorem c4_execute_query_catches (env : Env) (s : WorkflowState) (q : String) (e : PyError)
    (hq : s.sql_query = some q) (hdb : env.query_db q = .error e) :
    execute_query env s = .ok ({ sql_result := some (pyStrErr e) }, [.dbCall q]) ∧
    nextNode .execute_query (applyUpdate s { sql_result := some (pyStrErr e) }) =
      .ok (some .write_answer) := by
  refine ⟨?_, rfl⟩
  unfold execute_query
  simp only [hq]
  simp only [hdb]

/-- An environment whose data store raises a missing-column error. -/
def envDbErr : Env where
  llm := fun _ => ""
  loads := fun _ => none
  query_db := fun _ => .error ⟨.otherError, "no such column: Foo"⟩

/-- Witness for C4: a concrete missing-column failure is captured as the
`sql_result` text and the workflow proceeds to the answer-writing node. -/
theorem c4_execute_query_catches_witness :
    execute_query envDbErr { sql_query := some "SELECT Foo FROM Retail" } =
      .ok ({ sql_result := some "no such column: Foo" },
        [.dbCall "SELECT Foo FROM Retail"]) ∧
    nextNode .execute_query
      (applyUpdate { sql_query := some "SELECT Foo FROM Retail" }
        { sql_result := some "no such column: Foo" }) = .ok (some .write_answer) :=
  c4_execute_query_catches envDbErr _ "SELECT Foo FROM Retail"
    ⟨.otherError, "no such column: Foo"⟩ rfl rfl

/-- Claim C3: when the feasibility model output is not valid JSON, the parse
falls back to `{reasoning: "", can_answer: false}` — the step returns
normally (no parse error surfaced), with `plan` set to the empty string and
`can_answer` set to false. -/
theorem c3_parse_failure_defaults (env : Env) (s : WorkflowState) (q p : String)
    (hq : s.question = some q)
    (hf : fmt can_answer_router_prompt
      [("question", q), ("data_description", DB_DESCRIPTION)] = .ok p)
    (hl : env.loads (env.llm p) = none) :
    check_if_can_answer_question env s =
      .ok ({ plan := some (.str ""), can_answer := some (.bool false) }, [.llmCall p]) := by
  unfold check_if_can_answer_question can_answer_router
  simp only [hq]
  simp only [hf]
  unfold parse_json_output
  simp only [hl]
  rfl

/-- An environment whose model never returns parseable JSON. -/
def envBadJson : Env where
  llm := fun _ => "I would rather chat than emit JSON."
  loads := fun _ => none
  query_db := fun _ => .error ⟨.otherError, "unused"⟩

/-- Witness for C3: a concrete unparseable model output degrades to the
refusal default without an error. -/
theorem c3_parse_failure_defaults_witness : ∃ p,
    fmt can_answer_router_prompt
      [("question", "What is the average amount spent?"),
       ("data_description", DB_DESCRIPTION)] = .ok p ∧
    check_if_can_answer_question envBadJson
      { question := some "What is the average amount spent?" } =
      .ok ({ plan := some (.str ""), can_answer := some (.bool false) }, [.llmCall p]) :=
  ⟨_, rfl, c3_parse_failure_defaults envBadJson _ _ _ rfl rfl rfl⟩

/-- Does a parsed feasibility output carry both keys the step subscripts?
(True exactly when the fallback-free path cannot raise.) -/
def hasFeasKeys : Json → Bool
  | .obj kvs => (kvs.lookup "reasoning").isSome && (kvs.lookup "can_answer").isSome
  | _ => false

/-- An environment whose model returns the valid JSON text `[]` (an array,
not an object). -/
def envJsonArr : Env where
  llm := fun _ => "[]"
  loads := fun st => if st = "[]" then some (.arr []) else none
  query_db := fun _ => .error ⟨.otherError, "unused"⟩

/-- Counterexample to C9 as stated: when the feasibility output parses to a
JSON array, the step raises a `TypeError` (not a lookup error / `KeyError`)
from subscripting the list with a string. -/
theorem c9_counterexample_array_is_type_error :
    check_if_can_answer_question envJsonArr { question := some "q" } =
      .error ⟨.typeError, "list indices must be integers or slices, not str"⟩ := rfl

/-- Claim C9 as amended: if the feasibility output parses as valid JSON but
is not an object with both the `reasoning` and `can_answer` keys, the
fallback does not apply and the step raises an unhandled error — a
`KeyError` when the value is an object missing a key, a `TypeError` when it
is not an object at all. -/
theorem c9_invalid_shape_raises (env : Env) (s : WorkflowState) (q p : String) (j : Json)
    (hq : s.question = some q)
    (hf : fmt can_answer_router_prompt
      [("question", q), ("data_description", DB_DESCRIPTION)] = .ok p)
    (hl : env.loads (env.llm p) = some j)
    (hshape : hasFeasKeys j = false) :
    ∃ e, check_if_can_answer_question env s = .error e ∧
      (match j with
       | .obj _ => e.kind = .keyError
       | _ => e.kind = .typeError) := by
  unfold check_if_can_answer_question can_answer_router
  simp only [hq]
  simp only [hf]
  unfold parse_json_output
  simp only [hl]
  cases j with
  | obj kvs =>
    simp only [hasFeasKeys] at hshape
    cases hr : kvs.lookup "reasoning" with
    | none => exact ⟨⟨.keyError, "reasoning"⟩, by simp [subscript, hr], rfl⟩
    | some r =>
      cases hc : kvs.lookup "can_answer" with
      | none => exact ⟨⟨.keyError, "can_answer"⟩, by simp [subscript, hr, hc], rfl⟩
      | some c => rw [hr, hc] at hshape; simp at hshape
  | null => exact ⟨_, rfl, rfl⟩
  | bool b => exact ⟨_, rfl, rfl⟩
  | num n => exact ⟨_, rfl, rfl⟩
  | str t => exact ⟨_, rfl, rfl⟩
  | arr xs => exact ⟨_, rfl, rfl⟩

/-- An environment whose model returns a valid JSON object missing both
expected keys. -/
def envJsonNoKeys : Env where
  llm := fun _ => "\x7b\"foo\": 1\x7d"
  loads := fun st => if st = "\x7b\"foo\": 1\x7d" then some (.obj [("foo", .num 1)]) else none
  query_db := fun _ => .error ⟨.otherError, "unused"⟩

/-- Witness for the amended C9: a JSON object missing the expected keys makes
the feasibility step raise a `KeyError`. -/
theorem c9_invalid_shape_raises_witness :
    ∃ e, check_if_can_answer_question envJsonNoKeys { question := some "q" } = .error e ∧
      e.kind = ErrKind.keyError :=
  c9_invalid_shape_raises envJsonNoKeys _ "q" _ (.obj [("foo", .num 1)]) rfl rfl rfl rfl

/-- Claim C10: every step function returns only the state fields it
produces, so under the driver's merge all other fields are unchanged — the
feasibility step sets only `plan` and `can_answer`, the query-writing step
only `sql_query`, the query-execution step only `sql_result`, the
answer-writing and refusal steps only `answer`; no step ever sets
`question`, so merging leaves it (and every other untouched field) intact. -/
theorem c10_steps_frame (env : Env) (n : Node) (s u : WorkflowState) (effects : List Effect)
    (h : runNode env n s = .ok (u, effects)) :
    u.question = none ∧ (applyUpdate s u).question = s.question ∧
    (n = .check_if_can_answer_question →
      u.sql_query = none ∧ u.sql_result = none ∧ u.answer = none ∧
      (applyUpdate s u).sql_query = s.sql_query ∧
      (applyUpdate s u).sql_result = s.sql_result ∧
      (applyUpdate s u).answer = s.answer) ∧
    (n = .write_query →
      u.plan = none ∧ u.can_answer = none ∧ u.sql_result = none ∧ u.answer = none ∧
      (applyUpdate s u).plan = s.plan ∧ (applyUpdate s u).can_answer = s.can_answer ∧
      (applyUpdate s u).sql_result = s.sql_result ∧ (applyUpdate s u).answer = s.answer) ∧
    (n = .execute_query →
      u.plan = none ∧ u.can_answer = none ∧ u.sql_query = none ∧ u.answer = none ∧
      (applyUpdate s u).plan = s.plan ∧ (applyUpdate s u).can_answer = s.can_answer ∧
      (applyUpdate s u).sql_query = s.sql_query ∧ (applyUpdate s u).answer = s.answer) ∧
    ((n = .write_answer ∨ n = .cannot_answer) →
      u.plan = none ∧ u.can_answer = none ∧ u.sql_query = none ∧ u.sql_result = none ∧
      (applyUpdate s u).plan = s.plan ∧ (applyUpdate s u).can_answer = s.can_answer ∧
      (applyUpdate s u).sql_query = s.sql_query ∧
      (applyUpdate s u).sql_result = s.sql_result) := by
  cases n with
  | check_if_can_answer_question =>
    unfold runNode check_if_can_answer_question can_answer_router at h
    cases hq : s.question with
    | none => simp [hq] at h
    | some q =>
      simp only [hq] at h
      cases hf : fmt can_answer_router_prompt
          [("question", q), ("data_description", DB_DESCRIPTION)] with
      | error e => simp [hf] at h
      | ok prompt =>
        simp only [hf] at h
        cases hr : subscript (parse_json_output env (env.llm prompt)) "reasoning" with
        | error e => simp [hr] at h
        | ok reasoning =>
          simp only [hr] at h
          cases hc : subscript (parse_json_output env (env.llm prompt)) "can_answer" with
          | error e => simp [hc] at h
          | ok ca =>
            simp only [hc, Except.ok.injEq, Prod.mk.injEq] at h
            obtain ⟨h1, h2⟩ := h
            subst h1
            simp [applyUpdate, Option.orElse, hq]
  | write_query =>
    unfold runNode write_query at h
    cases hf : fmt write_query_prompt (stateKw s) with
    | error e => simp [hf] at h
    | ok prompt =>
      simp only [hf, Except.ok.injEq, Prod.mk.injEq] at h
      obtain ⟨h1, h2⟩ := h
      subst h1
      simp [applyUpdate, Option.orElse]
  | execute_query =>
    unfold runNode execute_query at h
    cases hq : s.sql_query with
    | none => simp [hq] at h
    | some query =>
      simp only [hq] at h
      cases hd : env.query_db query with
      | error e =>
        simp only [hd, Except.ok.injEq, Prod.mk.injEq] at h
        obtain ⟨h1, h2⟩ := h
        subst h1
        simp [applyUpdate, Option.orElse, hq]
      | ok rendered =>
        simp only [hd, Except.ok.injEq, Prod.mk.injEq] at h
        obtain ⟨h1, h2⟩ := h
        subst h1
        simp [applyUpdate, Option.orElse, hq]
  | write_answer =>
    unfold runNode write_answer at h
    cases hf : fmt write_answer_prompt (stateKw s) with
    | error e => simp [hf] at h
    | ok prompt =>
      simp only [hf, Except.ok.injEq, Prod.mk.injEq] at h
      obtain ⟨h1, h2⟩ := h
      subst h1
      simp [applyUpdate, Option.orElse]
  | cannot_answer =>
    unfold runNode cannot_answer at h
    cases hf : fmt cannot_answer_prompt (stateKw s) with
    | error e => simp [hf] at h
    | ok prompt =>
      simp only [hf, Except.ok.injEq, Prod.mk.injEq] at h
      obtain ⟨h1, h2⟩ := h
      subst h1
      simp [applyUpdate, Option.orElse]

/-- Witness for C10: merging the update returned by a concrete successful
`execute_query` run leaves the `question` field unchanged. -/
theorem c10_steps_frame_witness :
    (applyUpdate { question := some "w", sql_query := some "SELECT 1" }
      { sql_result := some "no such column: Foo" }).question = some "w" :=
  (c10_steps_frame envDbErr .execute_query
    { question := some "w", sql_query := some "SELECT 1" }
    { sql_result := some "no such column: Foo" } [.dbCall "SELECT 1"] rfl).2.1

/-- The literal feasibility model output of the refusal scenario. -/
def refuseJsonText : String :=
  "\x7b\"reasoning\": \"no such column\", \"can_answer\": false\x7d"

/-- An environment whose model answers the feasibility prompt with valid
JSON carrying `can_answer: false`, decoded accordingly. -/
def envRefuse : Env where
  llm := fun _ => refuseJsonText
  loads := fun st =>
    if st = refuseJsonText then
      some (.obj [("reasoning", .str "no such column"), ("can_answer", .bool false)])
    else none
  query_db := fun _ => .error ⟨.otherError, "db never reached"⟩

/-- The literal feasibility model output of the can-answer scenario. -/
def canJsonText : String :=
  "\x7b\"reasoning\": \"average Total_Spent filtered by State\", \"can_answer\": true\x7d"

/-- An environment whose model answers the feasibility prompt with valid
JSON carrying `can_answer: true`, decoded accordingly, over a data store
that would succeed. -/
def envCanAnswer : Env where
  llm := fun _ => canJsonText
  loads := fun st =>
    if st = canJsonText then
      some (.obj [("reasoning", .str "average Total_Spent filtered by State"),
        ("can_answer", .bool true)])
    else none
  query_db := fun _ => .ok "| AVG(Total_Spent) |"

/-- Claim C1, evaluated at the failing input: with feasibility output valid
JSON whose `can_answer` is false, the query-writing/execution/answer steps
are indeed never invoked and `sql_query`/`sql_result` are never set, but the
refusal step raises `KeyError("problem")` while formatting its template (the
session state carries no `problem` key), so the final `answer` field is
never produced. -/
theorem c1_refusal_step_raises : ∃ s tr,
    run_workflow envRefuse "How many purchases happened on Mars?" =
      .raised ⟨.keyError, "problem"⟩ .cannot_answer s tr ∧
    s.sql_query = none ∧ s.sql_result = none ∧ s.answer = none ∧
    tr.visited = [.check_if_can_answer_question] ∧
    llmCallCount tr.effects = 1 ∧ dbCallCount tr.effects = 0 :=
  ⟨_, _, rfl, rfl, rfl, rfl, rfl, rfl, rfl⟩

/-- Claim C2, evaluated at the failing input: on the can-answer path the run
raises `KeyError("data_description")` inside the query-writing step (the
session state carries no `data_description` key) after exactly one model
call and no data-store call — no run completes with two or four model
calls. -/
theorem c2_call_counts_unreachable : ∃ s tr,
    run_workflow envCanAnswer
      "What is the average amount spent by customers in California?" =
      .raised ⟨.keyError, "data_description"⟩ .write_query s tr ∧
    llmCallCount tr.effects = 1 ∧ dbCallCount tr.effects = 0 :=
  ⟨_, _, rfl, rfl, rfl⟩

/-- Claim C5, evaluated at the failing input: on the can-answer path the
query-writing step is entered but raises, so the query-execution and
answer-writing steps never run — the claimed once-each ordered execution
does not happen. -/
theorem c5_can_answer_path_never_executes : ∃ s tr,
    run_workflow envCanAnswer "Which category sold the most units?" =
      .raised ⟨.keyError, "data_description"⟩ .write_query s tr ∧
    tr.visited = [.check_if_can_answer_question] ∧
    Node.execute_query ∉ tr.visited ∧ Node.write_answer ∉ tr.visited := by
  refine ⟨_, _, rfl, rfl, ?_, ?_⟩ <;> decide

/-! ## Generic lemmas about template formatting -/

theorem fmtPieces_congr (kw kw' : List (String × String)) (ps : List Piece)
    (h : ∀ v ∈ varsOfPieces ps, kw.lookup v = kw'.lookup v) :
    fmtPieces kw ps = fmtPieces kw' ps := by
  induction ps with
  | nil => rfl
  | cons p rest ih =>
    cases p with
    | lit t =>
      have hrest : ∀ v ∈ varsOfPieces rest, kw.lookup v = kw'.lookup v := by
        intro v hv; exact h v (by simp [varsOfPieces, hv])
      simp only [fmtPieces]
      rw [ih hrest]
    | var v =>
      have hv : kw.lookup v = kw'.lookup v := h v (by simp [varsOfPieces])
      have hrest : ∀ w ∈ varsOfPieces rest, kw.lookup w = kw'.lookup w := by
        intro w hw; exact h w (by simp [varsOfPieces, hw])
      simp only [fmtPieces]
      rw [hv, ih hrest]

theorem fmtPieces_missing (kw : List (String × String)) (ps : List Piece) (v : String)
    (hv : v ∈ varsOfPieces ps) (hnone : kw.lookup v = none) :
    ∃ name, name ∈ varsOfPieces ps ∧ kw.lookup name = none ∧
      fmtPieces kw ps = .error ⟨.keyError, name⟩ := by
  induction ps with
  | nil => simp [varsOfPieces] at hv
  | cons p rest ih =>
    cases p with
    | lit t =>
      simp only [varsOfPieces] at hv
      obtain ⟨name, hmem, hn, herr⟩ := ih hv
      exact ⟨name, by simp [varsOfPieces, hmem], hn, by simp [fmtPieces, herr]⟩
    | var w =>
      by_cases hw : kw.lookup w = none
      · exact ⟨w, by simp [varsOfPieces], hw, by simp [fmtPieces, hw]⟩
      · simp only [varsOfPieces, List.mem_cons] at hv
        have hvrest : v ∈ varsOfPieces rest := by
          rcases hv with rfl | hv
          · exact absurd hnone hw
          · exact hv
        obtain ⟨name, hmem, hn, herr⟩ := ih hvrest
        refine ⟨name, by simp [varsOfPieces, hmem], hn, ?_⟩
        cases hl : kw.lookup w with
        | none => exact absurd hl hw
        | some val => simp [fmtPieces, hl, herr]

theorem fmtPieces_total (kw : List (String × String)) (ps : List Piece)
    (h : ∀ v ∈ varsOfPieces ps, (kw.lookup v).isSome) :
    ∃ s, fmtPieces kw ps = .ok s := by
  induction ps with
  | nil => exact ⟨"", rfl⟩
  | cons p rest ih =>
    cases p with
    | lit t =>
      obtain ⟨s, hs⟩ := ih (fun v hv => h v (by simp [varsOfPieces, hv]))
      exact ⟨t ++ s, by simp [fmtPieces, hs]⟩
    | var w =>
      have hw := h w (by simp [varsOfPieces])
      cases hl : kw.lookup w with
      | none => rw [hl] at hw; simp at hw
      | some val =>
        obtain ⟨s, hs⟩ := ih (fun v hv => h v (by simp [varsOfPieces, hv]))
        exact ⟨val ++ s, by simp [fmtPieces, hl, hs]⟩

/-- The specification's contract for one prompt template: formatting is a
deterministic pure function of the values of its named input variables
(inputs agreeing on those values format identically), each missing required
input is a `KeyError` rather than a prompt, and when all required inputs are
present a prompt string is produced. -/
def TemplateContract (t : PromptTemplate) : Prop :=
  (∀ kw kw', (∀ v ∈ t.input_variables, kw.lookup v = kw'.lookup v) → fmt t kw = fmt t kw') ∧
  (∀ kw v, v ∈ t.input_variables → kw.lookup v = none →
    ∃ name, name ∈ t.input_variables ∧ fmt t kw = .error ⟨.keyError, name⟩) ∧
  (∀ kw, (∀ v ∈ t.input_variables, (kw.lookup v).isSome) → ∃ s, fmt t kw = .ok s)

theorem contract_of_same_vars (t : PromptTemplate)
    (hvars : ∀ v, v ∈ varsOfPieces t.template ↔ v ∈ t.input_variables) :
    TemplateContract t := by
  refine ⟨?_, ?_, ?_⟩
  · intro kw kw' h
    exact fmtPieces_congr kw kw' t.template fun v hv => h v ((hvars v).mp hv)
  · intro kw v hv hnone
    obtain ⟨name, hmem, _, herr⟩ :=
      fmtPieces_missing kw t.template v ((hvars v).mpr hv) hnone
    exact ⟨name, (hvars name).mp hmem, herr⟩
  · intro kw h
    exact fmtPieces_total kw t.template fun v hv => h v ((hvars v).mp hv)

/-- Claim C8: each of the four prompt templates is a deterministic pure
function of its named inputs, and formatting with a required named input
missing is an error rather than a prompt. -/
theorem c8_templates_contract :
    TemplateContract can_answer_router_prompt ∧ TemplateContract write_query_prompt ∧
    TemplateContract write_answer_prompt ∧ TemplateContract cannot_answer_prompt := by
  refine ⟨?_, ?_, ?_, ?_⟩ <;>
    apply contract_of_same_vars <;>
    intro v <;>
    simp [can_answer_router_prompt, write_query_prompt, write_answer_prompt,
      cannot_answer_prompt, varsOfPieces] <;>
    tauto

/-- Witness for C8: formatting the refusal template without its `problem`
input is a `KeyError`, and with both inputs present it produces a prompt. -/
theorem c8_templates_contract_witness :
    (∃ name, name ∈ cannot_answer_prompt.input_variables ∧
      fmt cannot_answer_prompt [("question", "q")] = .error ⟨.keyError, name⟩) ∧
    (∃ s, fmt cannot_answer_prompt [("question", "q"), ("problem", "no data")] = .ok s) := by
  refine ⟨?_, ?_⟩
  · exact c8_templates_contract.2.2.2.2.1 [("question", "q")] "problem" (by decide) rfl
  · exact c8_templates_contract.2.2.2.2.2
      [("question", "q"), ("problem", "no data")] (by decide)
